import Mathlib

/-!
Verification of the GeoRide-Trips integration core against its
natural-language specification.

The Python sources under `custom_components/georide_trips/` are shallowly
embedded below:

* `sensor.py` (`GeoRideRealOdometerSensor._compute_tracker_km`,
  `native_value`, `GeoRideTripsCoordinator._async_update_data`) — the
  odometer reconciliation engine and the recent-trips polling coordinator;
* `api.py` (`get_trips`, `get_trackers`, `set_eco_mode`) — the REST client
  with its 401 re-login behaviour, modelled over an explicit list of HTTP
  outcomes consumed one request at a time;
* `button.py` (`GeoRideConfirmerPleinButton.async_press`,
  `_compute_and_record_plein`, `_fetch_post_plein_distance`) together with
  `sensor.py`'s one-shot `on_stop_confirmed` registry — the fill-up
  confirmation workflow, embedded both as a pure compute function and as an
  event-step machine;
* `socket_manager.py` (`GeoRideSocketManager._run_loop` and the `connect`
  handler installed by `_connect`) — the reconnection backoff loop.

Machine floats of the source are modelled as `ℚ`; Python's `round(x, n)`
(round-half-to-even) is modelled by `pyRoundInt`/`pyRound1`/`pyRound2`, and
Python's `int(x)` by `pyTruncInt`.  ISO-8601 timestamp strings, which the
source compares lexicographically, are modelled as `ℕ` with the empty
string represented by `0`.
-/

namespace GeoRide

/-- A trip as returned by the GeoRide API.  `startTime` and `distance`
(metres) are always present in API payloads; `endTime` is optional because
`sensor.py` explicitly falls back to `startTime` when it is absent or empty
(`t.get("endTime") or t.get("startTime", "")`).  Timestamps are ISO strings
compared lexicographically in the source, modelled as `ℕ` (0 = `""`). -/
structure Trip where
  startTime : ℕ
  endTime : Option ℕ
  distance : ℚ
deriving DecidableEq, Repr

/-- Constant `METERS_TO_KM` from `const.py`. -/
def METERS_TO_KM : ℚ := 1000

/-- Python's `round` to the nearest integer, ties to even (banker's
rounding), on exact rationals. -/
def pyRoundInt (x : ℚ) : ℤ :=
  let n : ℤ := ⌊x⌋
  let f : ℚ := x - n
  if f < 1/2 then n
  else if 1/2 < f then n + 1
  else if Even n then n else n + 1

/-- Python's `round(x, 2)`. -/
def pyRound2 (x : ℚ) : ℚ := (pyRoundInt (x * 100) : ℚ) / 100

/-- Python's `round(x, 1)`. -/
def pyRound1 (x : ℚ) : ℚ := (pyRoundInt (x * 10) : ℚ) / 10

/-- Python's `int(x)` on a float: truncation toward zero. -/
def pyTruncInt (x : ℚ) : ℤ := if 0 ≤ x then ⌊x⌋ else ⌈x⌉

/-- Date key the source uses for a lifetime trip:
`t.get("endTime") or t.get("startTime", "")`. -/
def tripKey (t : Trip) : ℕ := t.endTime.getD t.startTime

/-- From `sensor.py`, `_compute_tracker_km`: the date of the last trip known
to the lifetime window, `max(tripKey t)` over the lifetime trips, or `""`
(modelled `0`) when the window is empty. -/
def lastLifetimeDate (L : List Trip) : ℕ :=
  L.foldr (fun t m => max (tripKey t) m) 0

/-- From `sensor.py`, `_compute_tracker_km`: the recent-window trips counted
in the intraday delta.  When `last_lifetime_date` is truthy the recent
trips with `startTime > last_lifetime_date` are kept, otherwise all recent
trips are kept. -/
def newTrips (L R : List Trip) : List Trip :=
  if lastLifetimeDate L ≠ 0 then
    R.filter (fun t => lastLifetimeDate L < t.startTime)
  else R

/-- From `sensor.py`, `_compute_tracker_km`: `base_km`, the sum of the
lifetime trips' distances in metres divided by `METERS_TO_KM`. -/
def baseKm (L : List Trip) : ℚ := (L.map Trip.distance).sum / METERS_TO_KM

/-- From `sensor.py`, `_compute_tracker_km`: `delta_km`, the sum of the
counted recent trips' distances in metres divided by `METERS_TO_KM`. -/
def deltaKm (L R : List Trip) : ℚ := ((newTrips L R).map Trip.distance).sum / METERS_TO_KM

/-- From `sensor.py`, `GeoRideRealOdometerSensor.native_value`:
`round(base_km + delta_km + offset_km, 2)`. -/
def nativeValue (L R : List Trip) (offset : ℚ) : ℚ :=
  pyRound2 (baseKm L + deltaKm L R + offset)

/-- Odometer value as the specification words it: `base_km` (lifetime
window) plus `delta_km` over the recent-window trips whose start time is
strictly later than the latest end time among the lifetime-window trips,
plus the user offset, rounded to 2 decimals.  Stated from the spec text in
order to compare it with the source embedding `nativeValue`. -/
def odometerSpecValue (L R : List Trip) (offset : ℚ) : ℚ :=
  let baseSpec : ℚ := (L.map Trip.distance).sum / 1000
  let lastEnd : ℕ := L.foldr (fun t m => max (t.endTime.getD 0) m) 0
  let deltaSpec : ℚ :=
    ((R.filter (fun t => lastEnd < t.startTime)).map Trip.distance).sum / 1000
  pyRound2 (baseSpec + deltaSpec + offset)

/-- Delta-counting decision of `_compute_tracker_km` as a single boolean
predicate: a recent trip is counted when the lifetime window has no last
date (falsy `""`) or when the trip starts strictly after it. -/
def counted (d : ℕ) (t : Trip) : Bool := d == 0 || decide (d < t.startTime)

/-- Recent-window trips that the old partition counted in the delta but the
new (grown) partition no longer counts: these must have been absorbed into
the lifetime window for the odometer not to regress. -/
def excludedTrips (L A R : List Trip) : List Trip :=
  R.filter (fun t =>
    counted (lastLifetimeDate L) t && !(counted (lastLifetimeDate (L ++ A)) t))

/-! ### Fill-up confirmation workflow (`button.py`) -/

/-- Persistent per-device fill-up and fuel-economy slots read and written by
`GeoRideConfirmerPleinButton._compute_and_record_plein`:
`plein_pending_at` (sentinel epoch 1970 modelled as `none`),
`km_dernier_plein`, the three FIFO slots `km_plein_hist_1..3`,
`autonomie_moyenne_calculee` and `nb_pleins_enregistres`. -/
structure FuelState where
  pleinPendingAt : Option ℕ
  kmDernierPlein : ℚ
  hist1 : ℚ
  hist2 : ℚ
  hist3 : ℚ
  moyenne : ℚ
  nbPleins : ℚ
deriving DecidableEq, Repr

/-- From `button.py`, `_fetch_post_plein_distance`: the km driven after the
fill-up according to `get_trips(plein_pending_at → now)`; `none` models the
query raising or returning `None`, in which case `0.0` is returned. -/
def distancePostPlein (fetch : Option (List Trip)) : ℚ :=
  match fetch with
  | none => 0
  | some trips => pyRound2 ((trips.map Trip.distance).sum / METERS_TO_KM)

/-- From `button.py`, `_compute_and_record_plein`:
`odometer_au_plein = round(odometer_actuel - distance_post_plein, 2)`. -/
def odometerAuPlein (odometerActuel : ℚ) (fetch : Option (List Trip)) : ℚ :=
  pyRound2 (odometerActuel - distancePostPlein fetch)

/-- From `button.py`, `_compute_and_record_plein`:
`distance_inter_plein = round(odometer_au_plein - km_dernier_plein, 1)`. -/
def interPleinDistance (s : FuelState) (odometerActuel : ℚ)
    (fetch : Option (List Trip)) : ℚ :=
  pyRound1 (odometerAuPlein odometerActuel fetch - s.kmDernierPlein)

/-- From `button.py`, `_compute_and_record_plein`, as a pure state
transformer.  Inputs: the current slots, the state of `sensor.<p>_odometer`
(`odometerActuel`), and the outcome of the post-fill-up trips query.
Mirrors the source: missing pending marker returns unchanged; a
non-positive current odometer, non-positive computed odometer-at-fill-up,
or non-positive inter-fill-up distance aborts clearing only the marker;
the first fill-up only records the baseline; otherwise the 3-slot FIFO is
rotated, the rolling average is recomputed over the positive slots and the
counters are updated. -/
def computeAndRecordPlein (s : FuelState) (odometerActuel : ℚ)
    (fetch : Option (List Trip)) : FuelState :=
  match s.pleinPendingAt with
  | none => s
  | some _ =>
    if odometerActuel ≤ 0 then { s with pleinPendingAt := none }
    else if odometerAuPlein odometerActuel fetch ≤ 0 then { s with pleinPendingAt := none }
    else if s.kmDernierPlein = 0 then
      { s with kmDernierPlein := odometerAuPlein odometerActuel fetch
               nbPleins := 1
               pleinPendingAt := none }
    else if interPleinDistance s odometerActuel fetch ≤ 0 then
      { s with pleinPendingAt := none }
    else
      let inter := interPleinDistance s odometerActuel fetch
      let slots := ([inter, s.hist1, s.hist2].filter (fun x => decide (0 < x))).take 3
      { pleinPendingAt := none
        kmDernierPlein := odometerAuPlein odometerActuel fetch
        hist1 := inter
        hist2 := s.hist1
        hist3 := s.hist2
        moyenne := (pyRoundInt (slots.sum / (slots.length : ℚ)) : ℚ)
        nbPleins := (pyTruncInt s.nbPleins : ℚ) + 1 }

/-- One full trigger cycle: `async_press` records the pending timestamp,
then the lock-transition callback runs `_compute_and_record_plein` with the
then-current odometer reading and trips-query outcome. -/
def pressCycle (s : FuelState) (now : ℕ) (odometerActuel : ℚ)
    (fetch : Option (List Trip)) : FuelState :=
  computeAndRecordPlein { s with pleinPendingAt := some now } odometerActuel fetch

/-- Fresh fuel state: no pending fill-up, all number slots zero. -/
def initFuelState : FuelState := ⟨none, 0, 0, 0, 0, 0, 0⟩

/-! ### Trigger/cancel event machine (`button.py` + the coordinator's
one-shot `on_stop_confirmed` registry in `sensor.py`) -/

/-- Observable state of one confirm-fill-up button and the slice of the
coordinator's `_stop_confirmed_callbacks` registry holding this button's
callback.  `waits` counts the registered copies of
`_on_stop_confirmed_for_plein`; `unregArmed` is `_unregister_stop_cb is not
None`; `pending` is the `plein_pending_at` marker; `computes` counts
scheduled `_compute_and_record_plein` tasks; `presses` and `cancelled`
count button presses and waits removed by `_cancel_pending`. -/
structure PressState where
  waits : ℕ
  unregArmed : Bool
  pending : Option ℕ
  computes : ℕ
  presses : ℕ
  cancelled : ℕ
deriving DecidableEq, Repr

/-- Events driving the fill-up trigger machine: a button press at a given
time, the coordinator detecting the unlocked→locked transition, and the
mere passage of time. -/
inductive PressEvent where
  | press (now : ℕ)
  | lockConfirmed
  | tick (seconds : ℕ)
deriving DecidableEq, Repr

/-- Step function of the trigger machine, read off `async_press`,
`_cancel_pending`, `_on_stop_confirmed_for_plein` (`button.py`) and
`on_stop_confirmed` / `_on_lock_confirmed` (`sensor.py`).

* `press`: if `_unregister_stop_cb` is set, `_cancel_pending` removes one
  occurrence of the callback from the registry (`list.remove`, a no-op when
  absent); then `plein_pending_at := now` and a fresh one-shot subscription
  is appended.
* `lockConfirmed`: `_on_lock_confirmed` copies the registry, clears it, and
  invokes every copy; each invocation nulls the unregister handle and
  schedules one compute task.
* `tick`: `async_press` registers no timer of any kind, so time passing
  changes nothing. -/
def pressStep (s : PressState) : PressEvent → PressState
  | .press now =>
      let removed := if s.unregArmed then min s.waits 1 else 0
      { s with waits := s.waits - removed + 1
               unregArmed := true
               pending := some now
               presses := s.presses + 1
               cancelled := s.cancelled + removed }
  | .lockConfirmed =>
      if s.waits = 0 then s
      else { s with waits := 0, unregArmed := false, computes := s.computes + s.waits }
  | .tick _ => s

/-- Run of the trigger machine from the idle state. -/
def pressRun (evs : List PressEvent) : PressState :=
  evs.foldl pressStep ⟨0, false, none, 0, 0, 0⟩

/-- Inductive invariant of the trigger machine: the registry holds exactly
one copy of the button's callback when the unregister handle is armed and
none otherwise, and every scheduled compute is accounted to a distinct
press. -/
def pressInv (s : PressState) : Prop :=
  s.waits = (if s.unregArmed then 1 else 0) ∧ s.computes + s.waits ≤ s.presses

/-! ### REST client (`api.py`) -/

/-- Outcome of one HTTP request: a 200 response with its JSON payload, a
non-200 status code, or an exception raised during the request. -/
inductive Resp (α : Type) where
  | ok (payload : α)
  | err (code : ℕ)
  | exn
deriving DecidableEq, Repr

/-- From `api.py`, `get_trips`, over the list of successive HTTP outcomes
(one consumed per request) and the outcome of `login()` (`loginOk`).
Returns the result together with the number of 401-triggered retries
performed.  Status 200 returns the payload; status 401 with the retry
budget re-logs in and retries once (`_retry=False`), re-login failure and
every other status return `[]`; a raised exception returns `[]`.  An empty
outcome list also models a raised request, returning `[]`. -/
def getTripsR (loginOk : Bool) : Bool → List (Resp (List Trip)) → List Trip × ℕ
  | _, [] => ([], 0)
  | retry, r :: rest =>
    match r with
    | .ok trips => (trips, 0)
    | .exn => ([], 0)
    | .err code =>
        if code = 401 ∧ retry then
          if loginOk then
            ((getTripsR loginOk false rest).1, (getTripsR loginOk false rest).2 + 1)
          else ([], 0)
        else ([], 0)

/-- From `api.py`, `get_trackers` (tracker payloads modelled by their ids):
status 200 returns the payload and every other outcome returns `[]`; the
function has no 401 handling at all, hence always zero retries. -/
def getTrackersR (resps : List (Resp (List ℕ))) : List ℕ × ℕ :=
  match resps with
  | [] => ([], 0)
  | .ok tks :: _ => (tks, 0)
  | .err _ :: _ => ([], 0)
  | .exn :: _ => ([], 0)

/-- From `api.py`, `set_eco_mode`: status 200/204 returns `True`; status
401 re-logs in (result unchecked) and recursively retries with no retry
budget; other statuses and exceptions return `False`. -/
def setEcoModeR : List (Resp Unit) → Bool × ℕ
  | [] => (false, 0)
  | r :: rest =>
    match r with
    | .ok _ => (true, 0)
    | .exn => (false, 0)
    | .err code =>
        if code = 401 then ((setEcoModeR rest).1, (setEcoModeR rest).2 + 1)
        else (false, 0)

/-! ### Recent-trips polling coordinator (`sensor.py`) -/

/-- Sorting of the fetched trips window:
`trips.sort(key=lambda x: x.get("startTime", ""), reverse=True)`. -/
def sortByStartDesc (l : List Trip) : List Trip :=
  l.mergeSort (fun a b => b.startTime ≤ a.startTime)

/-- Data held by a polling coordinator together with its
`last_update_success` flag. -/
structure CoordState where
  data : List Trip
  healthy : Bool
deriving DecidableEq, Repr

/-- From `sensor.py`, `GeoRideTripsCoordinator._async_update_data`: fetch
the recent window via `get_trips` and sort it descending.  The surrounding
`try/except` raises `UpdateFailed` only when the body raises; `get_trips`
returns normally on every HTTP outcome (theorem `C10_get_trips_total`), so
the update always returns a value. -/
def tripsUpdateData (loginOk : Bool) (resps : List (Resp (List Trip))) :
    Except String (List Trip) :=
  Except.ok (sortByStartDesc (getTripsR loginOk true resps).1)

/-- Modelled from the spec: the host framework's `DataUpdateCoordinator`
refresh semantics are not part of this repository; per the spec, a refresh
returning a value replaces the held data and sets the healthy flag, while
a refresh that raises retains the previous good data and flips the flag
off ("failed refreshes retain the previous good data and flip the flag
off, they never clear prior data"). -/
def coordinatorRefresh (s : CoordState) (update : Except String (List Trip)) :
    CoordState :=
  match update with
  | .ok d => ⟨d, true⟩
  | .error _ => ⟨s.data, false⟩

/-- One full refresh of the recent-trips coordinator against given HTTP
outcomes. -/
def refreshStep (s : CoordState) (loginOk : Bool)
    (resps : List (Resp (List Trip))) : CoordState :=
  coordinatorRefresh s (tripsUpdateData loginOk resps)

/-! ### Reconnection backoff (`socket_manager.py`) -/

/-- Constant `RECONNECT_DELAY_INITIAL` from `socket_manager.py`. -/
def RECONNECT_DELAY_INITIAL : ℕ := 5

/-- Constant `RECONNECT_DELAY_MAX` from `socket_manager.py`. -/
def RECONNECT_DELAY_MAX : ℕ := 300

/-- State carried across iterations of `_run_loop`: `_reconnect_delay` and
`_connected`. -/
structure SockState where
  reconnectDelay : ℕ
  connected : Bool
deriving DecidableEq, Repr

/-- One iteration of the `while` loop of `_run_loop`, parameterised by
whether `_connect()` achieves a connection during this cycle.  Faithful to
the source: `was_connected` is read before `_connect()`; inside
`_connect()` the `connect` handler sets `_connected = True` and resets
`_reconnect_delay` to the initial value on a successful connection, and
the `finally` block always clears `_connected` before returning; back in
the loop the `if was_connected` reset runs, then the loop sleeps
`_reconnect_delay` seconds (returned as the second component) and doubles
it capped at the maximum. -/
def runCycle (s : SockState) (success : Bool) : SockState × ℕ :=
  let wasConnected := s.connected
  let delayAfterConnect := if success then RECONNECT_DELAY_INITIAL else s.reconnectDelay
  let delaySlept := if wasConnected then RECONNECT_DELAY_INITIAL else delayAfterConnect
  (⟨min (delaySlept * 2) RECONNECT_DELAY_MAX, false⟩, delaySlept)

/-- Iterated reconnection cycles, collecting the slept delays. -/
def runCycles (s : SockState) : List Bool → SockState × List ℕ
  | [] => (s, [])
  | b :: bs =>
      let c := runCycle s b
      let rest := runCycles c.1 bs
      (rest.1, c.2 :: rest.2)

/-- State of the manager when `_run_loop` starts. -/
def sockStart : SockState := ⟨RECONNECT_DELAY_INITIAL, false⟩

/-! ## Theorems -/

/-- Rounding an integer changes nothing. -/
theorem pyRoundInt_intCast (m : ℤ) : pyRoundInt (m : ℚ) = m := by
  rw [pyRoundInt]
  norm_num

/-- Exactness of `round(x, 2)` on rationals with at most two decimals. -/
theorem pyRound2_eq_self {x : ℚ} (m : ℤ) (h : x * 100 = (m : ℚ)) : pyRound2 x = x := by
  rw [pyRound2, h, pyRoundInt_intCast, ← h]
  ring

/-- Exactness of `round(x, 1)` on rationals with at most one decimal. -/
theorem pyRound1_eq_self {x : ℚ} (m : ℤ) (h : x * 10 = (m : ℚ)) : pyRound1 x = x := by
  rw [pyRound1, h, pyRoundInt_intCast, ← h]
  ring

/-- Truncating an integer changes nothing. -/
theorem pyTruncInt_intCast (m : ℤ) : pyTruncInt (m : ℚ) = m := by
  rw [pyTruncInt]
  split_ifs <;> simp

/-- For lifetime trips carrying a nonempty end time, the source's date key
is exactly that end time. -/
theorem tripKey_of_endTime {t : Trip} (h : 0 < t.endTime.getD 0) :
    tripKey t = t.endTime.getD 0 := by
  rcases he : t.endTime with _ | e
  · rw [he] at h; simp at h
  · simp [tripKey, he]

theorem lastLifetimeDate_eq_lastEnd {L : List Trip}
    (h : ∀ t ∈ L, 0 < t.endTime.getD 0) :
    lastLifetimeDate L = L.foldr (fun t m => max (t.endTime.getD 0) m) 0 := by
  induction L with
  | nil => rfl
  | cons t ts ih =>
      have ht := h t (by simp)
      have hts : ∀ u ∈ ts, 0 < u.endTime.getD 0 := fun u hu => h u (by simp [hu])
      simp only [lastLifetimeDate, List.foldr_cons] at *
      rw [tripKey_of_endTime ht, ih hts]

theorem lastLifetimeDate_pos {L : List Trip} (hne : L ≠ [])
    (h : ∀ t ∈ L, 0 < t.endTime.getD 0) : 0 < lastLifetimeDate L := by
  rcases L with _ | ⟨t, ts⟩
  · exact absurd rfl hne
  · have ht := h t (by simp)
    have : 0 < tripKey t := by rw [tripKey_of_endTime ht]; exact ht
    calc 0 < tripKey t := this
      _ ≤ max (tripKey t) (lastLifetimeDate ts) := le_max_left _ _
      _ = lastLifetimeDate (t :: ts) := rfl

/-- Claim C1: for every state of the lifetime and recent windows in which
every lifetime trip carries a (nonempty) end time, and every user offset,
the value reported by the real-odometer sensor equals `base_km` (sum of
lifetime trip distances in metres over 1000) plus `delta_km` (sum of
distances of recent trips starting strictly after the latest end time among
the lifetime trips) plus the offset, rounded to two decimals — i.e. the
source's `native_value` coincides with the specification's formula. -/
theorem C1_odometer_formula (L R : List Trip) (off : ℚ) (hne : L ≠ [])
    (hend : ∀ t ∈ L, 0 < t.endTime.getD 0) :
    nativeValue L R off = odometerSpecValue L R off := by
  have hkey := lastLifetimeDate_eq_lastEnd hend
  have hpos := lastLifetimeDate_pos hne hend
  rw [nativeValue, odometerSpecValue, baseKm, deltaKm, newTrips,
    if_pos (by omega : lastLifetimeDate L ≠ 0), METERS_TO_KM, hkey]

/-- Witness for C1 at the spec's scenario: one lifetime trip ending at time
10 totalling 500.0 km, one recent trip starting at time 11 of 12.3 km, and
offset +2.0 km; both the source value and the spec formula give 514.3. -/
theorem C1_odometer_formula_witness :
    nativeValue [⟨9, some 10, 500000⟩] [⟨11, some 12, 12300⟩] 2 = 5143/10 ∧
    odometerSpecValue [⟨9, some 10, 500000⟩] [⟨11, some 12, 12300⟩] 2 = 5143/10 := by
  have h := C1_odometer_formula [⟨9, some 10, 500000⟩] [⟨11, some 12, 12300⟩] 2
    (by simp) (by intro t ht; simp at ht; subst ht; norm_num)
  have hval : nativeValue [⟨9, some 10, 500000⟩] [⟨11, some 12, 12300⟩] 2 = 5143/10 := by
    rw [nativeValue, baseKm, deltaKm, newTrips]
    simp only [lastLifetimeDate, tripKey, List.foldr, Option.getD, METERS_TO_KM]
    norm_num
    exact pyRound2_eq_self 51430 (by norm_num)
  exact ⟨hval, h ▸ hval⟩

theorem newTrips_eq_filter (L R : List Trip) :
    newTrips L R = R.filter (counted (lastLifetimeDate L)) := by
  rw [newTrips]
  by_cases h : lastLifetimeDate L = 0
  · rw [if_neg (by simp [h])]
    exact (List.filter_eq_self.mpr fun t _ => by simp [counted, h]).symm
  · rw [if_pos h]
    apply List.filter_congr
    intro t _
    simp [counted, h]

theorem lastLifetimeDate_append (L A : List Trip) :
    lastLifetimeDate (L ++ A) = max (lastLifetimeDate L) (lastLifetimeDate A) := by
  induction L with
  | nil => simp [lastLifetimeDate]
  | cons t ts ih =>
      simp only [lastLifetimeDate, List.cons_append, List.foldr_cons] at *
      rw [ih, Nat.max_assoc]

/-- Raising the partition date can only shrink the set of counted trips. -/
theorem counted_mono {d0 d1 : ℕ} (h : d0 ≤ d1) (t : Trip)
    (hc : counted d1 t = true) : counted d0 t = true := by
  simp only [counted, Bool.or_eq_true, beq_iff_eq, decide_eq_true_eq] at hc ⊢
  omega

/-- Splitting a filtered distance sum along a stronger predicate. -/
theorem sum_filter_split (R : List Trip) (p q : Trip → Bool)
    (himp : ∀ t, q t = true → p t = true) :
    ((R.filter p).map Trip.distance).sum
      = ((R.filter q).map Trip.distance).sum
        + ((R.filter (fun t => p t && !q t)).map Trip.distance).sum := by
  induction R with
  | nil => simp
  | cons t ts ih =>
      by_cases hq : q t = true
      · have hp := himp t hq
        simp only [List.filter_cons, hp, hq, if_pos, Bool.not_true, Bool.and_false,
          if_true, Bool.false_eq_true, if_false, List.map_cons, List.sum_cons]
        rw [ih]; ring
      · have hq' : q t = false := by simpa using hq
        by_cases hp : p t = true
        · simp only [List.filter_cons, hp, hq', Bool.not_false, Bool.and_true, if_true,
            Bool.false_eq_true, if_false, List.map_cons, List.sum_cons]
          rw [ih]; ring
        · have hp' : p t = false := by simpa using hp
          simp only [List.filter_cons, hp', hq', Bool.and_self, Bool.false_eq_true,
            if_false, Bool.not_false, Bool.and_true]
          exact ih

theorem sum_map_le_of_subperm {l₁ l₂ : List Trip} (h : List.Subperm l₁ l₂)
    (hpos : ∀ t ∈ l₂, 0 ≤ t.distance) :
    (l₁.map Trip.distance).sum ≤ (l₂.map Trip.distance).sum := by
  obtain ⟨l, hperm, hsub⟩ := h
  have h1 : (l.map Trip.distance).sum = (l₁.map Trip.distance).sum :=
    (hperm.map Trip.distance).sum_eq
  have h2 : (l.map Trip.distance).sum ≤ (l₂.map Trip.distance).sum := by
    refine List.Sublist.sum_le_sum (hsub.map Trip.distance) ?_
    intro a ha
    obtain ⟨t, ht, rfl⟩ := List.mem_map.1 ha
    exact hpos t ht
  exact h1 ▸ h2

/-- Monotonicity of Python's integer rounding. -/
theorem pyRoundInt_mono {x y : ℚ} (h : x ≤ y) : pyRoundInt x ≤ pyRoundInt y := by
  have hf : ⌊x⌋ ≤ ⌊y⌋ := Int.floor_mono h
  have hx_lb : (⌊x⌋ : ℤ) ≤ pyRoundInt x := by
    rw [pyRoundInt]; split_ifs <;> omega
  have hx_ub : pyRoundInt x ≤ ⌊x⌋ + 1 := by
    rw [pyRoundInt]; split_ifs <;> omega
  have hy_lb : (⌊y⌋ : ℤ) ≤ pyRoundInt y := by
    rw [pyRoundInt]; split_ifs <;> omega
  rcases lt_or_eq_of_le hf with hlt | heq
  · omega
  · rw [pyRoundInt, pyRoundInt, ← heq]
    have hfr : x - ⌊x⌋ ≤ y - ⌊y⌋ := by rw [← heq]; linarith
    split_ifs with h1 h2 h3 h4 h5 h6 h7 h8 <;> try omega
    all_goals (exfalso; rw [← heq] at *; try linarith)

/-- Monotonicity of `round(x, 2)`. -/
theorem pyRound2_mono {x y : ℚ} (h : x ≤ y) : pyRound2 x ≤ pyRound2 y := by
  rw [pyRound2, pyRound2]
  have : (pyRoundInt (x * 100) : ℚ) ≤ (pyRoundInt (y * 100) : ℚ) := by
    exact_mod_cast pyRoundInt_mono (by linarith)
  linarith

/-- Claim C2 (amended): between two observations with the same offset, where
the lifetime window gains the trips `A`, the recent window gains the trips
`B`, gained distances are nonnegative, and every recent trip that the grown
lifetime partition excludes from the delta has been absorbed into the
lifetime gains (`List.Subperm (excludedTrips L A R) A`), the reported
odometer value does not decrease.  The absorption hypothesis is forced by
`C2_odometer_monotone_counterexample`: without it, a lifetime gain with a
late end time can evict recent trips from the delta without accounting for
their distance. -/
theorem C2_odometer_monotone (L A R B : List Trip) (off : ℚ)
    (hA : ∀ t ∈ A, 0 ≤ t.distance) (hB : ∀ t ∈ B, 0 ≤ t.distance)
    (habs : List.Subperm (excludedTrips L A R) A) :
    nativeValue L R off ≤ nativeValue (L ++ A) (R ++ B) off := by
  rw [nativeValue, nativeValue]
  apply pyRound2_mono
  have himp : ∀ t, counted (lastLifetimeDate (L ++ A)) t = true →
      counted (lastLifetimeDate L) t = true := by
    intro t hqt
    exact counted_mono (by rw [lastLifetimeDate_append]; exact le_max_left _ _) t hqt
  have hsplit := sum_filter_split R (counted (lastLifetimeDate L))
    (counted (lastLifetimeDate (L ++ A))) himp
  have hexc : ((R.filter (fun t => counted (lastLifetimeDate L) t &&
        !(counted (lastLifetimeDate (L ++ A)) t))).map Trip.distance).sum
      ≤ (A.map Trip.distance).sum := sum_map_le_of_subperm habs hA
  have hqB : (0:ℚ) ≤ ((B.filter (counted (lastLifetimeDate (L ++ A)))).map
      Trip.distance).sum := by
    apply List.sum_nonneg
    intro a ha
    obtain ⟨t, ht, rfl⟩ := List.mem_map.1 ha
    exact hB t (List.mem_of_mem_filter ht)
  have e1 : baseKm (L ++ A) = baseKm L + (A.map Trip.distance).sum / 1000 := by
    rw [baseKm, baseKm, List.map_append, List.sum_append, METERS_TO_KM, add_div]
  have e2 : deltaKm L R
      = ((R.filter (counted (lastLifetimeDate L))).map Trip.distance).sum / 1000 := by
    rw [deltaKm, newTrips_eq_filter, METERS_TO_KM]
  have e3 : deltaKm (L ++ A) (R ++ B)
      = ((R.filter (counted (lastLifetimeDate (L ++ A)))).map Trip.distance).sum / 1000
        + ((B.filter (counted (lastLifetimeDate (L ++ A)))).map Trip.distance).sum / 1000 := by
    rw [deltaKm, newTrips_eq_filter, List.filter_append, List.map_append,
      List.sum_append, METERS_TO_KM, add_div]
  rw [e1, e2, e3]
  linarith [hsplit, hexc, hqB]

/-- Witness for the amended C2: the lifetime window absorbs the single
recent trip (2 km starting at 10); the value stays at 3.0 km. -/
theorem C2_odometer_monotone_witness :
    nativeValue [⟨1, some 2, 1000⟩] [⟨10, some 12, 2000⟩] 0
      ≤ nativeValue ([⟨1, some 2, 1000⟩] ++ [⟨10, some 12, 2000⟩])
          ([⟨10, some 12, 2000⟩] ++ []) 0 := by
  refine C2_odometer_monotone [⟨1, some 2, 1000⟩] [⟨10, some 12, 2000⟩]
    [⟨10, some 12, 2000⟩] [] 0 ?_ ?_ ?_
  · intro t ht; simp at ht; subst ht; norm_num
  · intro t ht; simp at ht
  · exact List.Subperm.refl _

/-- Counterexample to C2 as stated: offset constant at 0, no trip removed
from either window (the lifetime window only gains a trip, the recent
window is unchanged, all distances nonnegative), yet the reported value
drops from 6.0 km to 1.1 km, because the gained lifetime trip (0.1 km
ending at time 40) evicts the 5 km recent trip (start 20) from the delta
without ever counting it in the base. -/
theorem C2_odometer_monotone_counterexample :
    List.Sublist ([⟨5, some 10, 1000⟩] : List Trip)
        ([⟨5, some 10, 1000⟩] ++ [⟨30, some 40, 100⟩]) ∧
    nativeValue ([⟨5, some 10, 1000⟩] ++ [⟨30, some 40, 100⟩])
        [⟨20, some 25, 5000⟩] 0
      < nativeValue [⟨5, some 10, 1000⟩] [⟨20, some 25, 5000⟩] 0 := by
  constructor
  · exact List.sublist_append_left _ _
  · have h1 : nativeValue [⟨5, some 10, 1000⟩] [⟨20, some 25, 5000⟩] 0 = 6 := by
      rw [nativeValue, baseKm, deltaKm, newTrips]
      simp only [lastLifetimeDate, tripKey, List.foldr, Option.getD, METERS_TO_KM]
      norm_num
      exact pyRound2_eq_self 600 (by norm_num)
    have h2 : nativeValue ([⟨5, some 10, 1000⟩] ++ [⟨30, some 40, 100⟩])
        [⟨20, some 25, 5000⟩] 0 = 11/10 := by
      rw [nativeValue, baseKm, deltaKm, newTrips]
      simp only [lastLifetimeDate, tripKey, List.foldr, Option.getD, METERS_TO_KM,
        List.cons_append, List.nil_append]
      norm_num
      exact pyRound2_eq_self 110 (by norm_num)
    rw [h1, h2]
    norm_num

/-- Claim C7: whenever a fill-up computation runs with a pending marker set
and the computed odometer-at-fill-up is non-positive, or (on a subsequent
fill-up, i.e. with a nonzero baseline) the inter-fill-up distance is
non-positive, the workflow aborts: the three FIFO history slots, the
rolling average, the confirmed count and the last-fill-up baseline are all
left unchanged and the pending marker is cleared back to the absent
sentinel. -/
theorem C7_abort_preserves_state (s : FuelState) (t : ℕ) (odo : ℚ)
    (fetch : Option (List Trip)) (hp : s.pleinPendingAt = some t)
    (habort : odometerAuPlein odo fetch ≤ 0 ∨
      (s.kmDernierPlein ≠ 0 ∧ interPleinDistance s odo fetch ≤ 0)) :
    computeAndRecordPlein s odo fetch = { s with pleinPendingAt := none } := by
  rw [computeAndRecordPlein, hp]
  by_cases h0 : odo ≤ 0
  · rw [if_pos h0]
  · rw [if_neg h0]
    rcases habort with h1 | ⟨h2, h3⟩
    · rw [if_pos h1]
    · by_cases h1 : odometerAuPlein odo fetch ≤ 0
      · rw [if_pos h1]
      · rw [if_neg h1, if_neg h2, if_pos h3]

/-- Witness for C7: a pending fill-up with baseline 480 km and history
(10, 20, 30); the current odometer reads 5 km while the post-fill-up trips
sum to 100 km, so the computed odometer-at-fill-up is −95 ≤ 0; everything
but the pending marker is preserved. -/
theorem C7_abort_preserves_state_witness :
    computeAndRecordPlein ⟨some 1, 480, 10, 20, 30, 20, 3⟩ 5
        (some [⟨1, some 2, 100000⟩])
      = ⟨none, 480, 10, 20, 30, 20, 3⟩ := by
  have hpost : distancePostPlein (some [⟨1, some 2, 100000⟩]) = 100 := by
    rw [distancePostPlein]
    simp only [List.map_cons, List.map_nil, List.sum_cons, List.sum_nil, METERS_TO_KM]
    norm_num
    exact pyRound2_eq_self 10000 (by norm_num)
  have hodo : odometerAuPlein 5 (some [⟨1, some 2, 100000⟩]) = -95 := by
    rw [odometerAuPlein, hpost]
    norm_num
    exact pyRound2_eq_self (-9500) (by norm_num)
  exact C7_abort_preserves_state ⟨some 1, 480, 10, 20, 30, 20, 3⟩ 1 5
    (some [⟨1, some 2, 100000⟩]) rfl (Or.inl (by rw [hodo]; norm_num))

/-- With an empty trips query result the post-fill-up distance is zero and
the odometer-at-fill-up is just the rounded current reading. -/
theorem odometerAuPlein_emptyFetch (odo : ℚ) :
    odometerAuPlein odo (some []) = pyRound2 odo := by
  rw [odometerAuPlein, distancePostPlein]
  simp only [List.map_nil, List.sum_nil, METERS_TO_KM]
  norm_num
  rw [show pyRound2 0 = 0 from pyRound2_eq_self 0 (by norm_num)]
  ring_nf

/-- First-ever fill-up: with a zero baseline and an exactly-representable
positive reading, only the baseline and the confirmed count change. -/
theorem computePlein_first (s : FuelState) (t : ℕ) (odo : ℚ)
    (hp : s.pleinPendingAt = some t) (hodo : 0 < odo)
    (hexact : pyRound2 odo = odo) (hkm : s.kmDernierPlein = 0) :
    computeAndRecordPlein s odo (some [])
      = { s with kmDernierPlein := odo, nbPleins := 1, pleinPendingAt := none } := by
  have hplein : odometerAuPlein odo (some []) = odo := by
    rw [odometerAuPlein_emptyFetch, hexact]
  rw [computeAndRecordPlein, hp, if_neg (by linarith), hplein,
    if_neg (by linarith), if_pos hkm]

/-- Subsequent fill-up with an exactly-representable reading and a positive
exactly-representable inter-fill-up distance: the FIFO rotates, the average
is recomputed over the positive slots, the count is bumped and the baseline
moves to the new reading. -/
theorem computePlein_next (s : FuelState) (t : ℕ) (odo : ℚ)
    (hp : s.pleinPendingAt = some t) (hodo : 0 < odo)
    (hexact : pyRound2 odo = odo) (hkm : s.kmDernierPlein ≠ 0)
    (hiexact : pyRound1 (odo - s.kmDernierPlein) = odo - s.kmDernierPlein)
    (hipos : 0 < odo - s.kmDernierPlein) :
    computeAndRecordPlein s odo (some [])
      = { pleinPendingAt := none
          kmDernierPlein := odo
          hist1 := odo - s.kmDernierPlein
          hist2 := s.hist1
          hist3 := s.hist2
          moyenne := (pyRoundInt
            ((([odo - s.kmDernierPlein, s.hist1, s.hist2].filter
                (fun x => decide (0 < x))).take 3).sum
              / ((([odo - s.kmDernierPlein, s.hist1, s.hist2].filter
                (fun x => decide (0 < x))).take 3).length : ℚ)) : ℚ)
          nbPleins := (pyTruncInt s.nbPleins : ℚ) + 1 } := by
  have hplein : odometerAuPlein odo (some []) = odo := by
    rw [odometerAuPlein_emptyFetch, hexact]
  have hinter : interPleinDistance s odo (some []) = odo - s.kmDernierPlein := by
    rw [interPleinDistance, hplein, hiexact]
  rw [computeAndRecordPlein, hp, if_neg (by linarith), hplein,
    if_neg (by linarith), if_neg hkm, hinter, if_neg (by linarith)]

/-- Tuple form of `computePlein_first` with the record fields spelled
out. -/
theorem computePlein_first' (t : ℕ) (a b c moy nb odo : ℚ) (hodo : 0 < odo)
    (hexact : pyRound2 odo = odo) :
    computeAndRecordPlein ⟨some t, 0, a, b, c, moy, nb⟩ odo (some [])
      = ⟨none, odo, a, b, c, moy, 1⟩ :=
  computePlein_first ⟨some t, 0, a, b, c, moy, nb⟩ t odo rfl hodo hexact rfl

/-- Tuple form of `computePlein_next` with the record fields spelled
out. -/
theorem computePlein_next' (t : ℕ) (km a b c moy nb odo : ℚ) (hodo : 0 < odo)
    (hexact : pyRound2 odo = odo) (hkm : km ≠ 0)
    (hiexact : pyRound1 (odo - km) = odo - km) (hipos : 0 < odo - km) :
    computeAndRecordPlein ⟨some t, km, a, b, c, moy, nb⟩ odo (some [])
      = ⟨none, odo, odo - km, a, b,
          (pyRoundInt
            ((([odo - km, a, b].filter (fun x => decide (0 < x))).take 3).sum
              / ((([odo - km, a, b].filter (fun x => decide (0 < x))).take 3).length : ℚ)) : ℚ),
          (pyTruncInt nb : ℚ) + 1⟩ :=
  computePlein_next ⟨some t, km, a, b, c, moy, nb⟩ t odo rfl hodo hexact hkm hiexact hipos

theorem filter_pos_cons (x : ℚ) (l : List ℚ) (h : 0 < x) :
    (x :: l).filter (fun y => decide (0 < y)) = x :: l.filter (fun y => decide (0 < y)) := by
  simp [List.filter_cons, h]

theorem filter_not_pos_cons (x : ℚ) (l : List ℚ) (h : ¬ 0 < x) :
    (x :: l).filter (fun y => decide (0 < y)) = l.filter (fun y => decide (0 < y)) := by
  simp [List.filter_cons, h]

/-- Five trigger cycles from a fresh fuel state, at exactly-representable
increasing odometer readings `o0 < o1 < o2 < o3 < o4` with empty
post-fill-up trip queries: the first cycle records the baseline, the four
following confirmed fill-ups produce the inter-fill-up distances
`o1-o0, o2-o1, o3-o2, o4-o3`; afterwards the FIFO slots hold the last
three distances newest-first, the stored average is the integer-rounded
mean of the three positive slots, the count is 5 and the baseline is
`o4`. -/
theorem fifoRunFive_eq (o0 o1 o2 o3 o4 : ℚ)
    (hp0 : 0 < o0) (hp1 : o0 < o1) (hp2 : o1 < o2) (hp3 : o2 < o3) (hp4 : o3 < o4)
    (hx0 : pyRound2 o0 = o0) (hx1 : pyRound2 o1 = o1) (hx2 : pyRound2 o2 = o2)
    (hx3 : pyRound2 o3 = o3) (hx4 : pyRound2 o4 = o4)
    (hi1 : pyRound1 (o1 - o0) = o1 - o0) (hi2 : pyRound1 (o2 - o1) = o2 - o1)
    (hi3 : pyRound1 (o3 - o2) = o3 - o2) (hi4 : pyRound1 (o4 - o3) = o4 - o3) :
    pressCycle (pressCycle (pressCycle (pressCycle (pressCycle initFuelState
        1 o0 (some [])) 2 o1 (some [])) 3 o2 (some [])) 4 o3 (some [])) 5 o4 (some [])
      = ⟨none, o4, o4 - o3, o3 - o2, o2 - o1,
          (pyRoundInt (((o4 - o3) + (o3 - o2) + (o2 - o1)) / 3) : ℚ), 5⟩ := by
  have d1 : (0:ℚ) < o1 - o0 := by linarith
  have d2 : (0:ℚ) < o2 - o1 := by linarith
  have d3 : (0:ℚ) < o3 - o2 := by linarith
  have d4 : (0:ℚ) < o4 - o3 := by linarith
  have e1 : pressCycle initFuelState 1 o0 (some [])
      = (⟨none, o0, 0, 0, 0, 0, 1⟩ : FuelState) := by
    show computeAndRecordPlein ⟨some 1, 0, 0, 0, 0, 0, 0⟩ o0 (some []) = _
    exact computePlein_first' 1 0 0 0 0 0 o0 hp0 hx0
  have e2 : pressCycle (⟨none, o0, 0, 0, 0, 0, 1⟩ : FuelState) 2 o1 (some [])
      = (⟨none, o1, o1 - o0, 0, 0, (pyRoundInt (o1 - o0) : ℚ), 2⟩ : FuelState) := by
    show computeAndRecordPlein ⟨some 2, o0, 0, 0, 0, 0, 1⟩ o1 (some []) = _
    rw [computePlein_next' 2 o0 0 0 0 0 1 o1 (by linarith) hx1 (by linarith) hi1 d1]
    rw [filter_pos_cons _ _ d1, filter_not_pos_cons _ _ (lt_irrefl 0),
      filter_not_pos_cons _ _ (lt_irrefl 0)]
    norm_num [pyTruncInt]
  have e3 : pressCycle (⟨none, o1, o1 - o0, 0, 0, (pyRoundInt (o1 - o0) : ℚ), 2⟩ : FuelState)
      3 o2 (some [])
      = (⟨none, o2, o2 - o1, o1 - o0, 0,
          (pyRoundInt (((o2 - o1) + (o1 - o0)) / 2) : ℚ), 3⟩ : FuelState) := by
    show computeAndRecordPlein ⟨some 3, o1, o1 - o0, 0, 0,
      (pyRoundInt (o1 - o0) : ℚ), 2⟩ o2 (some []) = _
    rw [computePlein_next' 3 o1 (o1 - o0) 0 0 (pyRoundInt (o1 - o0) : ℚ) 2 o2
      (by linarith) hx2 (by linarith) hi2 d2]
    rw [filter_pos_cons _ _ d2, filter_pos_cons _ _ d1,
      filter_not_pos_cons _ _ (lt_irrefl 0)]
    norm_num [pyTruncInt]
  have e4 : pressCycle (⟨none, o2, o2 - o1, o1 - o0, 0,
        (pyRoundInt (((o2 - o1) + (o1 - o0)) / 2) : ℚ), 3⟩ : FuelState) 4 o3 (some [])
      = (⟨none, o3, o3 - o2, o2 - o1, o1 - o0,
          (pyRoundInt (((o3 - o2) + (o2 - o1) + (o1 - o0)) / 3) : ℚ), 4⟩ : FuelState) := by
    show computeAndRecordPlein ⟨some 4, o2, o2 - o1, o1 - o0, 0,
      (pyRoundInt (((o2 - o1) + (o1 - o0)) / 2) : ℚ), 3⟩ o3 (some []) = _
    rw [computePlein_next' 4 o2 (o2 - o1) (o1 - o0) 0
      (pyRoundInt (((o2 - o1) + (o1 - o0)) / 2) : ℚ) 3 o3
      (by linarith) hx3 (by linarith) hi3 d3]
    rw [filter_pos_cons _ _ d3, filter_pos_cons _ _ d2, filter_pos_cons _ _ d1]
    norm_num [pyTruncInt]
  have e5 : pressCycle (⟨none, o3, o3 - o2, o2 - o1, o1 - o0,
        (pyRoundInt (((o3 - o2) + (o2 - o1) + (o1 - o0)) / 3) : ℚ), 4⟩ : FuelState)
      5 o4 (some [])
      = (⟨none, o4, o4 - o3, o3 - o2, o2 - o1,
          (pyRoundInt (((o4 - o3) + (o3 - o2) + (o2 - o1)) / 3) : ℚ), 5⟩ : FuelState) := by
    show computeAndRecordPlein ⟨some 5, o3, o3 - o2, o2 - o1, o1 - o0,
      (pyRoundInt (((o3 - o2) + (o2 - o1) + (o1 - o0)) / 3) : ℚ), 4⟩ o4 (some []) = _
    rw [computePlein_next' 5 o3 (o3 - o2) (o2 - o1) (o1 - o0)
      (pyRoundInt (((o3 - o2) + (o2 - o1) + (o1 - o0)) / 3) : ℚ) 4 o4
      (by linarith) hx4 (by linarith) hi4 d4]
    rw [filter_pos_cons _ _ d4, filter_pos_cons _ _ d3, filter_pos_cons _ _ d2]
    norm_num [pyTruncInt]
  rw [e1, e2, e3, e4, e5]

/-- Claim C8 (amended): starting from a fresh fuel state, after the
baseline fill-up at reading `o0` and four confirmed fill-ups at readings
`o1 < o2 < o3 < o4` producing the inter-fill-up distances
`d1 = o1-o0, d2 = o2-o1, d3 = o3-o2, d4 = o4-o3` (readings exactly
representable at the source's rounding precisions), the three FIFO slots
hold `[d4, d3, d2]` — oldest discarded, newest in slot 1 — and the stored
rolling average is the *integer-rounded* (ties-to-even) arithmetic mean of
the non-zero occupied slots, `pyRoundInt (mean(d4, d3, d2))`.  The claim's
assertion that the stored average equals the exact arithmetic mean is
refuted by `C8_fifo_rotation_counterexample`; the source stores
`round(sum(slots)/len(slots))` with no decimal places. -/
theorem C8_fifo_rotation (o0 o1 o2 o3 o4 : ℚ)
    (hp0 : 0 < o0) (hp1 : o0 < o1) (hp2 : o1 < o2) (hp3 : o2 < o3) (hp4 : o3 < o4)
    (hx0 : pyRound2 o0 = o0) (hx1 : pyRound2 o1 = o1) (hx2 : pyRound2 o2 = o2)
    (hx3 : pyRound2 o3 = o3) (hx4 : pyRound2 o4 = o4)
    (hi1 : pyRound1 (o1 - o0) = o1 - o0) (hi2 : pyRound1 (o2 - o1) = o2 - o1)
    (hi3 : pyRound1 (o3 - o2) = o3 - o2) (hi4 : pyRound1 (o4 - o3) = o4 - o3) :
    pressCycle (pressCycle (pressCycle (pressCycle (pressCycle initFuelState
        1 o0 (some [])) 2 o1 (some [])) 3 o2 (some [])) 4 o3 (some [])) 5 o4 (some [])
      = ⟨none, o4, o4 - o3, o3 - o2, o2 - o1,
          (pyRoundInt (((o4 - o3) + (o3 - o2) + (o2 - o1)) / 3) : ℚ), 5⟩ :=
  fifoRunFive_eq o0 o1 o2 o3 o4 hp0 hp1 hp2 hp3 hp4 hx0 hx1 hx2 hx3 hx4 hi1 hi2 hi3 hi4

/-- Counterexample to C8 as stated: baseline 100 km, then four confirmed
fill-ups at 150, 250, 350 and 451 km, producing inter-fill-up distances
50, 100, 100 and 101 km.  The FIFO slots do hold `[101, 100, 100]`, but the
stored rolling average is `100` (integer rounding of 301/3), not the
arithmetic mean 301/3 claimed. -/
theorem C8_fifo_rotation_counterexample :
    (pressCycle (pressCycle (pressCycle (pressCycle (pressCycle initFuelState
        1 100 (some [])) 2 150 (some [])) 3 250 (some [])) 4 350 (some [])) 5 451
        (some [])).hist1 = 101 ∧
    (pressCycle (pressCycle (pressCycle (pressCycle (pressCycle initFuelState
        1 100 (some [])) 2 150 (some [])) 3 250 (some [])) 4 350 (some [])) 5 451
        (some [])).hist2 = 100 ∧
    (pressCycle (pressCycle (pressCycle (pressCycle (pressCycle initFuelState
        1 100 (some [])) 2 150 (some [])) 3 250 (some [])) 4 350 (some [])) 5 451
        (some [])).hist3 = 100 ∧
    (pressCycle (pressCycle (pressCycle (pressCycle (pressCycle initFuelState
        1 100 (some [])) 2 150 (some [])) 3 250 (some [])) 4 350 (some [])) 5 451
        (some [])).moyenne ≠ (101 + 100 + 100) / 3 := by
  have h := fifoRunFive_eq 100 150 250 350 451
    (by norm_num) (by norm_num) (by norm_num) (by norm_num) (by norm_num)
    (pyRound2_eq_self 10000 (by norm_num)) (pyRound2_eq_self 15000 (by norm_num))
    (pyRound2_eq_self 25000 (by norm_num)) (pyRound2_eq_self 35000 (by norm_num))
    (pyRound2_eq_self 45100 (by norm_num))
    (pyRound1_eq_self 500 (by norm_num)) (pyRound1_eq_self 1000 (by norm_num))
    (pyRound1_eq_self 1000 (by norm_num)) (pyRound1_eq_self 1010 (by norm_num))
  rw [h]
  refine ⟨by norm_num, by norm_num, by norm_num, ?_⟩
  have hm : ((451:ℚ) - 350 + (350 - 250) + (250 - 150)) / 3 = 301/3 := by norm_num
  have hr : pyRoundInt ((301:ℚ)/3) = 100 := by
    rw [pyRoundInt]
    norm_num
  show (pyRoundInt (((451:ℚ) - 350 + (350 - 250) + (250 - 150)) / 3) : ℚ) ≠ _
  rw [hm, hr]
  norm_num

/-- Witness for the amended C8: baseline 100 km and confirmed fill-ups at
150, 240, 340 and 450 km (inter distances 50, 90, 100, 110): the slots end
up `[110, 100, 90]` with stored average `100 = pyRoundInt(300/3)`. -/
theorem C8_fifo_rotation_witness :
    pressCycle (pressCycle (pressCycle (pressCycle (pressCycle initFuelState
        1 100 (some [])) 2 150 (some [])) 3 240 (some [])) 4 340 (some [])) 5 450
        (some [])
      = ⟨none, 450, 110, 100, 90, 100, 5⟩ := by
  have h := C8_fifo_rotation 100 150 240 340 450
    (by norm_num) (by norm_num) (by norm_num) (by norm_num) (by norm_num)
    (pyRound2_eq_self 10000 (by norm_num)) (pyRound2_eq_self 15000 (by norm_num))
    (pyRound2_eq_self 24000 (by norm_num)) (pyRound2_eq_self 34000 (by norm_num))
    (pyRound2_eq_self 45000 (by norm_num))
    (pyRound1_eq_self 500 (by norm_num)) (pyRound1_eq_self 900 (by norm_num))
    (pyRound1_eq_self 1000 (by norm_num)) (pyRound1_eq_self 1100 (by norm_num))
  rw [h]
  have hm : ((450:ℚ) - 340 + (340 - 240) + (240 - 150)) / 3 = ((100:ℤ) : ℚ) := by norm_num
  simp only [FuelState.mk.injEq]
  refine ⟨trivial, by norm_num, by norm_num, by norm_num, by norm_num, ?_, trivial⟩
  rw [hm, pyRoundInt_intCast]
  norm_num

/-- Preservation of the trigger-machine invariant by every event. -/
theorem pressStep_inv (s : PressState) (e : PressEvent) (h : pressInv s) :
    pressInv (pressStep s e) := by
  obtain ⟨h1, h2⟩ := h
  cases e with
  | press now =>
      cases hb : s.unregArmed <;>
        simp only [pressStep, pressInv, hb, if_true, if_false] <;>
        rw [hb] at h1 <;> simp at h1 ⊢ <;> omega
  | lockConfirmed =>
      by_cases hw : s.waits = 0
      · simp only [pressStep, if_pos hw]
        exact ⟨h1, h2⟩
      · simp only [pressStep, if_neg hw, pressInv]
        constructor
        · simp
        · simp; omega
  | tick n => exact ⟨h1, h2⟩

theorem pressFoldl_inv (evs : List PressEvent) (s : PressState) (h : pressInv s) :
    pressInv (evs.foldl pressStep s) := by
  induction evs generalizing s with
  | nil => exact h
  | cons e es ih => exact ih _ (pressStep_inv s e h)

theorem pressRun_inv (evs : List PressEvent) : pressInv (pressRun evs) :=
  pressFoldl_inv evs _ ⟨rfl, Nat.le_refl 0⟩

/-- Claim C5: in every reachable state of the trigger machine, at most one
copy of the button's one-shot wait is registered (no two pending fill-ups
coexist), the number of compute invocations never exceeds the number of
trigger presses (at most one compute per trigger cycle), and a press while
a wait is armed removes exactly one outstanding wait before arming the new
one. -/
theorem C5_cancel_exactly_one (evs : List PressEvent) (now : ℕ)
    (harmed : (pressRun evs).unregArmed = true) :
    (pressRun evs).waits ≤ 1 ∧
    (pressRun evs).computes ≤ (pressRun evs).presses ∧
    (pressStep (pressRun evs) (.press now)).cancelled = (pressRun evs).cancelled + 1 ∧
    (pressStep (pressRun evs) (.press now)).waits = 1 := by
  obtain ⟨h1, h2⟩ := pressRun_inv evs
  rw [harmed] at h1
  simp only [if_true] at h1
  refine ⟨by omega, by omega, ?_, ?_⟩
  · simp [pressStep, harmed, h1]
  · simp [pressStep, harmed, h1]

/-- Witness for C5: after a single press the wait is armed; a second press
cancels exactly the one outstanding wait and leaves a single armed wait. -/
theorem C5_cancel_exactly_one_witness :
    (pressRun [PressEvent.press 0]).waits ≤ 1 ∧
    (pressRun [PressEvent.press 0]).computes ≤ (pressRun [PressEvent.press 0]).presses ∧
    (pressStep (pressRun [PressEvent.press 0]) (.press 3)).cancelled
      = (pressRun [PressEvent.press 0]).cancelled + 1 ∧
    (pressStep (pressRun [PressEvent.press 0]) (.press 3)).waits = 1 :=
  C5_cancel_exactly_one [PressEvent.press 0] 3 (by decide)

/-- Only the lock-transition event can schedule a compute task. -/
theorem pressFoldl_computes (evs : List PressEvent) (s : PressState)
    (h : ∀ e ∈ evs, e ≠ PressEvent.lockConfirmed) :
    (evs.foldl pressStep s).computes = s.computes := by
  induction evs generalizing s with
  | nil => rfl
  | cons e es ih =>
      have he := h e (by simp)
      have hes : ∀ x ∈ es, x ≠ PressEvent.lockConfirmed := fun x hx => h x (by simp [hx])
      rw [List.foldl_cons, ih _ hes]
      cases e with
      | press now => rfl
      | lockConfirmed => exact absurd rfl he
      | tick n => rfl

/-- Claim C6 (amended): `async_press` arms no fallback timer at all — in
the embedded machine the compute step is scheduled only by the
lock-transition event, so along any trace without a lock transition the
compute step is never invoked, however much time passes (the workflow does
wait indefinitely).  The distance-zero fallback exists only inside the
compute step: when the post-fill-up trips query fails, the distance is
taken as 0 and the odometer-at-fill-up is the (rounded) current reading
directly. -/
theorem C6_no_fallback_timer (evs : List PressEvent) (odo : ℚ)
    (h : ∀ e ∈ evs, e ≠ PressEvent.lockConfirmed) :
    (pressRun evs).computes = 0 ∧
    distancePostPlein none = 0 ∧
    odometerAuPlein odo none = pyRound2 odo := by
  refine ⟨pressFoldl_computes evs _ h, rfl, ?_⟩
  rw [odometerAuPlein, distancePostPlein, sub_zero]

/-- Witness for the amended C6: a press followed by 30 minutes of silence
and another press never schedules a compute. -/
theorem C6_no_fallback_timer_witness :
    (pressRun [PressEvent.press 0, PressEvent.tick 1800, PressEvent.press 7]).computes = 0 ∧
    distancePostPlein none = 0 ∧
    odometerAuPlein 500 none = pyRound2 500 :=
  C6_no_fallback_timer [PressEvent.press 0, PressEvent.tick 1800, PressEvent.press 7]
    500 (by decide)

/-- Counterexample to C6 as stated: the button is pressed at time 0 and 31
minutes (1860 s) pass with no lock transition; the claim asserts the
fallback timer fires after 30 minutes and still invokes the compute step,
but no compute has run and the pending fill-up marker is still set — no
fallback timer exists anywhere in `button.py`. -/
theorem C6_no_fallback_timer_counterexample :
    (pressRun [PressEvent.press 0, PressEvent.tick 1860]).computes = 0 ∧
    (pressRun [PressEvent.press 0, PressEvent.tick 1860]).pending = some 0 := by
  decide

/-- With the retry budget spent, `get_trips` never retries again. -/
theorem getTripsR_noRetry (lo : Bool) (resps : List (Resp (List Trip))) :
    (getTripsR lo false resps).2 = 0 := by
  cases resps with
  | nil => rfl
  | cons r rest =>
      cases r with
      | ok p => rfl
      | err c => simp [getTripsR]
      | exn => rfl

/-- Claim C4 (amended): `get_trips` retries at most once on an
authentication-expired (401) response — exactly once when re-login
succeeds, surfacing `[]` when the retried request fails again or re-login
fails — but the behaviour is *not* uniform across the client's REST
operations: `get_trackers` performs zero retries on every outcome
(it has no 401 handling), and `set_eco_mode` retries on *every* 401 it
receives, without a retry budget (`n` consecutive 401 responses produce
`n` re-login/retry cycles). -/
theorem C4_auth_retry :
    (∀ (lo retry : Bool) (resps : List (Resp (List Trip))),
      (getTripsR lo retry resps).2 ≤ 1) ∧
    (∀ rest : List (Resp (List Trip)), getTripsR true true (Resp.err 401 :: rest)
      = ((getTripsR true false rest).1, (getTripsR true false rest).2 + 1)) ∧
    (∀ rest : List (Resp (List Trip)),
      getTripsR false true (Resp.err 401 :: rest) = ([], 0)) ∧
    (∀ rest : List (Resp (List Trip)),
      getTripsR true false (Resp.err 401 :: rest) = ([], 0)) ∧
    (∀ resps : List (Resp (List ℕ)), (getTrackersR resps).2 = 0) ∧
    (∀ (n : ℕ) (rest : List (Resp Unit)),
      setEcoModeR (List.replicate n (Resp.err 401) ++ Resp.ok () :: rest) = (true, n)) := by
  refine ⟨?_, ?_, ?_, ?_, ?_, ?_⟩
  · intro lo retry resps
    cases retry with
    | false => rw [getTripsR_noRetry]; omega
    | true =>
        cases resps with
        | nil => simp [getTripsR]
        | cons r rest =>
            cases r with
            | ok p => simp [getTripsR]
            | exn => simp [getTripsR]
            | err c =>
                by_cases hc : c = 401
                · subst hc
                  cases lo with
                  | false => simp [getTripsR]
                  | true => simp [getTripsR, getTripsR_noRetry]
                · simp [getTripsR, hc]
  · intro rest; simp [getTripsR]
  · intro rest; simp [getTripsR]
  · intro rest; simp [getTripsR]
  · intro resps
    cases resps with
    | nil => rfl
    | cons r rest => cases r <;> rfl
  · intro n rest
    induction n with
    | zero => simp [setEcoModeR]
    | succ n ih => simp [List.replicate_succ, setEcoModeR, ih]

/-- Counterexample to C4 as stated: a 401 on `get_trackers` is answered
with the empty list and zero retries (the follow-up 200 response is never
requested), and two consecutive 401s on `set_eco_mode` produce two
re-login/retry cycles — so the claimed "exactly once, never zero and never
more than once" fails in both directions. -/
theorem C4_auth_retry_counterexample :
    getTrackersR [Resp.err 401, Resp.ok [7]] = ([], 0) ∧
    setEcoModeR [Resp.err 401, Resp.err 401, Resp.ok ()] = (true, 2) :=
  ⟨rfl, rfl⟩

/-- Claim C10: `get_trips` is total at its interface: a raised request
(`exn`) yields `[]` with no retry, a 401 whose re-login fails yields `[]`,
and along any outcome sequence containing no 200 response the result is
`[]` — every failure path returns the empty list rather than propagating
an exception. -/
theorem C10_get_trips_total :
    (∀ (lo retry : Bool) (rest : List (Resp (List Trip))),
      getTripsR lo retry (Resp.exn :: rest) = ([], 0)) ∧
    (∀ rest : List (Resp (List Trip)),
      getTripsR false true (Resp.err 401 :: rest) = ([], 0)) ∧
    (∀ (lo retry : Bool) (resps : List (Resp (List Trip))),
      (∀ r ∈ resps, r = Resp.exn ∨ ∃ c, r = Resp.err c) →
      (getTripsR lo retry resps).1 = []) := by
  refine ⟨?_, ?_, ?_⟩
  · intro lo retry rest; cases retry <;> rfl
  · intro rest; simp [getTripsR]
  · intro lo retry resps
    induction resps generalizing retry with
    | nil => intro _; cases retry <;> rfl
    | cons r rest ih =>
        intro h
        have hr := h r (by simp)
        have hrest : ∀ x ∈ rest, x = Resp.exn ∨ ∃ c, x = Resp.err c :=
          fun x hx => h x (by simp [hx])
        rcases hr with rfl | ⟨c, rfl⟩
        · cases retry <;> rfl
        · cases retry with
          | false => simp [getTripsR]
          | true =>
              by_cases hc : c = 401
              · subst hc
                cases lo with
                | false => simp [getTripsR]
                | true => simp [getTripsR, ih false hrest]
              · simp [getTripsR, hc]

/-- Witness for C10: a 500 response followed by a raised request produces
the empty list. -/
theorem C10_get_trips_total_witness :
    (getTripsR true true [Resp.err 500, Resp.exn]).1 = ([] : List Trip) :=
  C10_get_trips_total.2.2 true true [Resp.err 500, Resp.exn] (by
    intro r hr
    simp only [List.mem_cons, List.mem_singleton, List.not_mem_nil, or_false] at hr
    rcases hr with rfl | rfl
    · exact Or.inr ⟨500, rfl⟩
    · exact Or.inl rfl)

/-- Claim C3 (what the code actually does at the claimed failing inputs):
with previous good data held and the healthy flag on, a refresh whose
underlying trips fetch fails — HTTP 500, a raised request, or a 401 whose
re-login fails — *replaces* the held data with the empty list and leaves
the healthy flag on, because `get_trips` swallows every failure into `[]`
and `_async_update_data` therefore never raises `UpdateFailed`. -/
theorem C3_failed_fetch_replaces_data :
    refreshStep ⟨[⟨1, some 2, 42⟩], true⟩ true [Resp.err 500] = ⟨[], true⟩ ∧
    refreshStep ⟨[⟨1, some 2, 42⟩], true⟩ true [Resp.exn] = ⟨[], true⟩ ∧
    refreshStep ⟨[⟨1, some 2, 42⟩], false⟩ false [Resp.err 401] = ⟨[], true⟩ := by
  refine ⟨?_, ?_, ?_⟩ <;>
    simp [refreshStep, tripsUpdateData, coordinatorRefresh, getTripsR,
      sortByStartDesc, List.mergeSort_nil]

/-- Monotone step of the capped doubling: sleeping then doubling a capped
delay keeps the closed form. -/
theorem runCycles_replicate_false (k m : ℕ) :
    runCycles ⟨min (5 * 2 ^ k) 300, false⟩ (List.replicate m false)
      = (⟨min (5 * 2 ^ (k + m)) 300, false⟩,
         (List.range m).map fun i => min (5 * 2 ^ (k + i)) 300) := by
  induction m generalizing k with
  | zero => simp [runCycles]
  | succ m ih =>
      have hmin : min (min (5 * 2 ^ k) 300 * 2) 300 = min (5 * 2 ^ (k + 1)) 300 := by
        have h2 : 5 * 2 ^ (k + 1) = 5 * 2 ^ k * 2 := by ring
        rw [h2]
        omega
      have hcycle : runCycle ⟨min (5 * 2 ^ k) 300, false⟩ false
          = (⟨min (5 * 2 ^ (k + 1)) 300, false⟩, min (5 * 2 ^ k) 300) := by
        rw [runCycle]
        simp [RECONNECT_DELAY_MAX, RECONNECT_DELAY_INITIAL, hmin]
      rw [List.replicate_succ, runCycles, hcycle, ih (k + 1)]
      dsimp only
      congr 1
      · rw [show k + 1 + m = k + (m + 1) from by omega]
      · rw [List.range_succ_eq_map, List.map_cons, List.map_map, Nat.add_zero]
        congr 1
        apply List.map_congr_left
        intro i _
        simp only [Function.comp_apply]
        rw [show k + 1 + i = k + (i + 1) from by omega]

/-- Claim C9 (amended): from manager start, `N` consecutive failed
connection cycles produce the reconnection delays
`min(5·2^(N-1), 300)` — the `i`-th element of the slept-delay list is
`min(5·2^i, 300)`, matching the claimed `min(initial·2^(N-1), max)`.
After a cycle that achieves a connection, the handler-side reset makes the
single next delay the initial 5 s, but the loop doubles the delay *before*
the next outcome is known, so a streak of `N` failures following a success
sleeps `min(5·2^N, 300)` after its `N`-th failure — twice the claimed
formula (shown false by `C9_backoff_counterexample`).  The loop-bottom
`if was_connected` reset can never fire, because `_connect`'s `finally`
clears `_connected` before the flag is read. -/
theorem C9_backoff (N : ℕ) :
    (runCycles sockStart (List.replicate N false)).2
      = ((List.range N).map fun i => min (5 * 2 ^ i) 300) ∧
    (runCycles sockStart (true :: List.replicate N false)).2
      = 5 :: ((List.range N).map fun i => min (5 * 2 ^ (1 + i)) 300) := by
  have hstart : sockStart = ⟨min (5 * 2 ^ 0) 300, false⟩ := by
    rw [sockStart, RECONNECT_DELAY_INITIAL]
    norm_num
  constructor
  · rw [hstart, runCycles_replicate_false 0 N]
    simp
  · have hcycle : runCycle sockStart true = (⟨min (5 * 2 ^ 1) 300, false⟩, 5) := by
      rw [runCycle, sockStart, RECONNECT_DELAY_INITIAL, RECONNECT_DELAY_MAX]
      norm_num
    rw [runCycles, hcycle, runCycles_replicate_false 1 N]

/-- Counterexample to C9 as stated: one successful cycle followed by two
failed cycles sleeps 5, 10 and 20 seconds; the claimed formula (delay
resets to the initial value after the successful cycle, then
`min(5·2^(N-1), 300)` for `N` consecutive failures) predicts 5, 5 and 10 —
the delay slept after the first consecutive failure is 10, not
`min(5·2^0, 300) = 5`. -/
theorem C9_backoff_counterexample :
    (runCycles sockStart [true, false, false]).2 = [5, 10, 20] ∧
    (runCycles sockStart [true, false, false]).2[1]? ≠ some (min (5 * 2 ^ (1 - 1)) 300) := by
  decide

end GeoRide
